import Mathlib

/-!
Verification of the GPG key-management TUI core: a shallow embedding of
the repository's data model and operations (application mode, key type,
detail level, engine configuration, and the cryptographic context's
listing / import / export operations), together with theorems settling
the specification's claims about them.

The OpenPGP engine (gpgme), the filesystem and the template crate are
external collaborators of the code under verification; they are modelled
as explicit parameters (structures of functions, state-threading for
mutation) so that each theorem quantifies over their behaviour.
-/

namespace Gpg

/-- ASCII lowercasing of a string, character by character.  Models
`str::to_lowercase` as used by the program (all strings the program
matches against are basic latin). -/
def strToLower (s : String) : String :=
  String.mk (s.data.map Char.toLower)

/-- Application mode (`src/app/mode.rs`, `enum Mode`). -/
inductive Mode where
  /-- Normal mode. -/
  | Normal
  /-- Visual mode. -/
  | Visual
  /-- Copy mode. -/
  | Copy
deriving DecidableEq

/-- The debug name of a `Mode` variant, as produced by `{:?}`. -/
def Mode.debugName : Mode → String
  | .Normal => "Normal"
  | .Visual => "Visual"
  | .Copy => "Copy"

/-- `impl Display for Mode` (`src/app/mode.rs` lines 17-21):
`write!(f, "-- {} --", format!("{:?}", self).to_lowercase())`. -/
def Mode.display (m : Mode) : String :=
  "-- " ++ strToLower m.debugName ++ " --"

/-- `impl FromStr for Mode` (`src/app/mode.rs` lines 23-33): match on the
lowercased input; full word or first letter; anything else is `Err(())`. -/
def Mode.from_str (s : String) : Except Unit Mode :=
  if strToLower s = "normal" ∨ strToLower s = "n" then .ok .Normal
  else if strToLower s = "visual" ∨ strToLower s = "v" then .ok .Visual
  else if strToLower s = "copy" ∨ strToLower s = "c" then .ok .Copy
  else .error ()

/-- The lowercase name of a `Mode` variant (the body of its display). -/
def Mode.lowerName : Mode → String
  | .Normal => "normal"
  | .Visual => "visual"
  | .Copy => "copy"

/-- The first letter of a `Mode` variant's name, lowercased. -/
def Mode.shortName : Mode → String
  | .Normal => "n"
  | .Visual => "v"
  | .Copy => "c"

/-- Type of the key (`src/gpg/key.rs`, `enum KeyType`). -/
inductive KeyType where
  /-- Public key. -/
  | Public
  /-- Secret (private) key. -/
  | Secret
deriving DecidableEq

/-- `impl Display for KeyType` (`src/gpg/key.rs` lines 14-25). -/
def KeyType.toDisplay : KeyType → String
  | .Public => "pub"
  | .Secret => "sec"

/-- Level of detail to show for a key (`src/gpg/key.rs`,
`enum KeyDetailLevel`). -/
inductive KeyDetailLevel where
  /-- Show only the primary key and user ID. -/
  | Minimum
  /-- Show all subkeys and user IDs. -/
  | Standard
  /-- Show signatures. -/
  | Full
deriving DecidableEq

/-- The explicit discriminant of `KeyDetailLevel` (`Minimum = 0`,
`Standard = 1`, `Full = 2`), as read by `*self as i8`. -/
def KeyDetailLevel.disc : KeyDetailLevel → Int
  | .Minimum => 0
  | .Standard => 1
  | .Full => 2

/-- `KeyDetailLevel::increase` (`src/gpg/key.rs` lines 38-47): match on
`*self as i8 + 1`, mapping `1 => Standard`, `2 => Full`, `_ => Minimum`.
The Rust method mutates in place; it is modelled as the pure successor. -/
def KeyDetailLevel.increase (l : KeyDetailLevel) : KeyDetailLevel :=
  let n : Int := l.disc + 1
  if n = 1 then .Standard
  else if n = 2 then .Full
  else .Minimum

/-- C8: the detail enum's successor follows the cycle
Minimum → Standard → Full → Minimum: `increase()` maps Minimum to
Standard, Standard to Full, wraps Full back to Minimum, and three
successive calls starting from Minimum return Minimum. -/
theorem keyDetailLevel_increase_cycle :
    KeyDetailLevel.Minimum.increase = KeyDetailLevel.Standard ∧
    KeyDetailLevel.Standard.increase = KeyDetailLevel.Full ∧
    KeyDetailLevel.Full.increase = KeyDetailLevel.Minimum ∧
    KeyDetailLevel.Minimum.increase.increase.increase
      = KeyDetailLevel.Minimum := by
  decide

/-- C2 counterexample: starting from Minimum, four successive
`increase()` calls yield Standard, not the starting value Minimum. -/
theorem keyDetailLevel_four_increases_not_identity :
    KeyDetailLevel.Minimum.increase.increase.increase.increase
      = KeyDetailLevel.Standard ∧
    KeyDetailLevel.Minimum.increase.increase.increase.increase
      ≠ KeyDetailLevel.Minimum := by
  decide

/-- C2 (amended): for every starting value of the detail enum, three
successive `increase()` calls return the enum to the starting value
(the cycle Minimum → Standard → Full → Minimum has period three). -/
theorem keyDetailLevel_three_increases_identity (l : KeyDetailLevel) :
    l.increase.increase.increase = l := by
  cases l <;> rfl

/-- C9: every mode displays as `-- <lowercase-name> --` (the lowercase
name also being the lowercasing of the variant's debug name), and
parsing succeeds with `m` exactly on the strings whose lowercasing is
the lowercase name of `m` or its first letter; in particular parsing is
case-insensitive and every other string fails with a parse error. -/
theorem mode_display_parse_characterization (m : Mode) (s : String) :
    (Mode.display m = "-- " ++ m.lowerName ++ " --" ∧
     m.lowerName = strToLower m.debugName) ∧
    (Mode.from_str s = .ok m ↔
      (strToLower s = m.lowerName ∨ strToLower s = m.shortName)) ∧
    ((∀ m' : Mode, Mode.from_str s ≠ .ok m') →
      Mode.from_str s = .error ()) := by
  refine ⟨by cases m <;> exact ⟨by decide, by decide⟩, ?_, ?_⟩
  · unfold Mode.from_str
    generalize strToLower s = t
    cases m <;> simp only [Mode.lowerName, Mode.shortName] <;>
      · split
        · rename_i h; rcases h with h | h <;> subst h <;> simp
        · split
          · rename_i h; rcases h with h | h <;> subst h <;> simp
          · split
            · rename_i h; rcases h with h | h <;> subst h <;> simp
            · simp_all
  · intro h
    cases hfs : Mode.from_str s with
    | error e => cases e; rfl
    | ok m' => exact absurd hfs (h m')

/-- C9 witness: `from_str "V"` recovers Visual (whose lowered first
letter is `v`). -/
theorem mode_display_parse_characterization_witness :
    Mode.from_str "V" = .ok Mode.Visual :=
  (mode_display_parse_characterization Mode.Visual "V").2.1.mpr
    (Or.inr (by decide))

/-- The typed failure surfaced to callers (`anyhow::Error` in the code).
Engine (gpgme) errors, I/O errors and template errors arrive through `?`
conversions and are distinguishable from the messages the code itself
raises with `anyhow!`, so they are kept apart by constructor. -/
inductive GpgError where
  /-- An error code reported by the gpgme engine. -/
  | engineErr (code : Nat)
  /-- An operating-system I/O error. -/
  | ioErr (code : Nat)
  /-- A template parse/render failure. -/
  | templateErr (msg : String)
  /-- A message raised by the program itself via `anyhow!`. -/
  | anyhowMsg (msg : String)
deriving DecidableEq

/-- Decidable equality for `Except` results (used to evaluate the
operations at concrete inputs). -/
instance {ε α : Type} [DecidableEq ε] [DecidableEq α] :
    DecidableEq (Except ε α) :=
  fun a b =>
    match a, b with
    | .ok x, .ok y =>
      if h : x = y then .isTrue (by rw [h]) else
        .isFalse (by intro hc; cases hc; exact h rfl)
    | .error x, .error y =>
      if h : x = y then .isTrue (by rw [h]) else
        .isFalse (by intro hc; cases hc; exact h rfl)
    | .ok _, .error _ => .isFalse (by intro hc; cases hc)
    | .error _, .ok _ => .isFalse (by intro hc; cases hc)

/-- Modelled from the spec: the output-filename template engine (the
external `tinytemplate` crate, which `src/` only calls).  Spec §6 and
§9: a minimalist `{name}`-style substitution engine; delimiters are the
braces, placeholder names are literal, and an unknown placeholder must
error at render time rather than silently elide.  The accumulator holds
the (reversed) name of the placeholder currently being read, if any. -/
def renderAux (ctx : List (String × String)) :
    List Char → Option (List Char) → Except String (List Char)
  | [], none => .ok []
  | [], some _ => .error "unexpected end of template"
  | c :: rest, none =>
    if c = '{' then renderAux ctx rest (some [])
    else (renderAux ctx rest none).map (fun t => c :: t)
  | c :: rest, some acc =>
    if c = '}' then
      match ctx.lookup (String.mk acc.reverse) with
      | some v => (renderAux ctx rest none).map (fun t => v.data ++ t)
      | none => .error ("unknown value name " ++ String.mk acc.reverse)
    else renderAux ctx rest (some (c :: acc))

/-- Renders a template over the given substitution context (the
`add_template` / `render` pair of `TinyTemplate`). -/
def renderTemplate (tmpl : String) (ctx : List (String × String)) :
    Except String String :=
  (renderAux ctx tmpl.data none).map String.mk

/-- Appending strings appends their character data. -/
theorem mkAppend (a b : List Char) :
    String.mk a ++ String.mk b = String.mk (a ++ b) := rfl

/-- `PathBuf::join`: an absolute right operand replaces the base;
otherwise the components are separated by exactly one slash. -/
def pathJoin (base p : String) : String :=
  if p.data.headD ' ' = '/' then p
  else if base = "" then p
  else if base.data.getLast? = some '/' then base ++ p
  else base ++ "/" ++ p

/-- `Path::parent`: the path with its last component removed. -/
def parentOf (p : String) : String :=
  String.mk (((p.data.reverse.dropWhile (fun c => ¬ c = '/')).drop 1).reverse)

/-- The filesystem, modelled as an abstract state `ω` with the three
operations the code uses: `Path::exists`, `fs::create_dir_all` and the
`File::create` + `write_all` pair.  The mutating operations return an
I/O error code or success together with the successor state. -/
structure FsModel (ω : Type) where
  /-- `Path::exists`. -/
  path_exists : ω → String → Bool
  /-- `fs::create_dir_all`: recursively create a directory. -/
  create_dir_all : ω → String → (Except Nat Unit) × ω
  /-- `File::create(path)` followed by `write_all(bytes)`: create or
  truncate the file at `path` and write the bytes. -/
  file_write : ω → String → List Nat → (Except Nat Unit) × ω

/-- Configuration manager for GPGME (`src/gpg/config.rs`,
`struct GpgConfig`).  The `inner: Gpgme` library handle is modelled
separately (see `Gpgme`); the data fields are carried here. -/
structure GpgConfig where
  /-- Flag for using ASCII armored output. -/
  armor : Bool
  /-- Default key for signing operations. -/
  default_key : Option String
  /-- Home directory. -/
  home_dir : String
  /-- Template for the output file name. -/
  output_file : String
  /-- Output directory. -/
  output_dir : String
deriving DecidableEq

/-- The `ExportContext` record handed to the template renderer
(`src/gpg/context.rs` lines 16-25 and 69-77): `type` is the key type's
short form, `query` is the single pattern or the literal `out`, `ext`
follows the armor flag. -/
def exportContextOf (cfg : GpgConfig) (key_type : KeyType)
    (patterns : List String) : List (String × String) :=
  [("type", key_type.toDisplay),
   ("query", if patterns.length = 1 then patterns.headD "" else "out"),
   ("ext", if cfg.armor then "asc" else "pgp")]

/-- `GpgContext::get_output_file` (`src/gpg/context.rs` lines 62-86):
render the stored template over the export context, join the result
onto `output_dir`, create the parent directory when the path does not
exist, and return the path. -/
def GpgContext.get_output_file {ω : Type} (fs : FsModel ω)
    (cfg : GpgConfig) (key_type : KeyType) (patterns : List String)
    (w : ω) : (Except GpgError String) × ω :=
  match renderTemplate cfg.output_file (exportContextOf cfg key_type patterns) with
  | .error e => (.error (.templateErr e), w)
  | .ok rendered =>
    let path := pathJoin cfg.output_dir rendered
    if fs.path_exists w path then (.ok path, w)
    else
      match fs.create_dir_all w (parentOf path) with
      | (.error n, w') => (.error (.ioErr n), w')
      | (.ok _, w') => (.ok path, w')

/-- Rendering the program's three-placeholder template substitutes the
context values verbatim. -/
theorem render_tqe (tv qv ev : String) :
    renderTemplate "{query}-{type}.{ext}"
      [("type", tv), ("query", qv), ("ext", ev)]
      = .ok (qv ++ "-" ++ tv ++ "." ++ ev) := by
  obtain ⟨ltv⟩ := tv
  obtain ⟨lqv⟩ := qv
  obtain ⟨lev⟩ := ev
  simp [renderTemplate, renderAux, List.lookup, Except.map]
  rw [show ("-" : String) = String.mk ['-'] from rfl,
    show ("." : String) = String.mk ['.'] from rfl,
    mkAppend, mkAppend, mkAppend, mkAppend]
  simp [List.append_assoc]

/-- C1: `get_output_file` renders the stored template over
{type, query, ext} and joins the result onto `output_dir`; `{type}`
renders as `pub`/`sec`, `{ext}` as `asc` when armor is set else `pgp`,
`{query}` as the pattern iff exactly one pattern was supplied else the
literal `out`; and with the template `{query}-{type}.{ext}`, armor on,
Secret and patterns `["0x0"]` it returns `<output_dir>/0x0-sec.asc`. -/
theorem get_output_file_template_rendering {ω : Type} (fs : FsModel ω)
    (cfg : GpgConfig) (w : ω) :
    (∀ (kt : KeyType) (patterns : List String) (r : String),
      renderTemplate cfg.output_file (exportContextOf cfg kt patterns) = .ok r →
      fs.path_exists w (pathJoin cfg.output_dir r) = true →
      GpgContext.get_output_file fs cfg kt patterns w
        = (.ok (pathJoin cfg.output_dir r), w)) ∧
    (KeyType.toDisplay .Public = "pub" ∧ KeyType.toDisplay .Secret = "sec") ∧
    (∀ (kt : KeyType) (patterns : List String),
      cfg.output_file = "{query}-{type}.{ext}" →
      fs.path_exists w (pathJoin cfg.output_dir
          ((if patterns.length = 1 then patterns.headD "" else "out")
            ++ "-" ++ kt.toDisplay ++ "."
            ++ (if cfg.armor then "asc" else "pgp"))) = true →
      GpgContext.get_output_file fs cfg kt patterns w
        = (.ok (pathJoin cfg.output_dir
            ((if patterns.length = 1 then patterns.headD "" else "out")
              ++ "-" ++ kt.toDisplay ++ "."
              ++ (if cfg.armor then "asc" else "pgp"))), w)) ∧
    (cfg.output_file = "{query}-{type}.{ext}" → cfg.armor = true →
      fs.path_exists w (pathJoin cfg.output_dir "0x0-sec.asc") = true →
      GpgContext.get_output_file fs cfg .Secret ["0x0"] w
        = (.ok (pathJoin cfg.output_dir "0x0-sec.asc"), w)) := by
  have h1 : ∀ (kt : KeyType) (patterns : List String) (r : String),
      renderTemplate cfg.output_file (exportContextOf cfg kt patterns) = .ok r →
      fs.path_exists w (pathJoin cfg.output_dir r) = true →
      GpgContext.get_output_file fs cfg kt patterns w
        = (.ok (pathJoin cfg.output_dir r), w) := by
    intro kt patterns r hr hex
    unfold GpgContext.get_output_file
    rw [hr]
    simp [hex]
  have h3 : ∀ (kt : KeyType) (patterns : List String),
      cfg.output_file = "{query}-{type}.{ext}" →
      fs.path_exists w (pathJoin cfg.output_dir
          ((if patterns.length = 1 then patterns.headD "" else "out")
            ++ "-" ++ kt.toDisplay ++ "."
            ++ (if cfg.armor then "asc" else "pgp"))) = true →
      GpgContext.get_output_file fs cfg kt patterns w
        = (.ok (pathJoin cfg.output_dir
            ((if patterns.length = 1 then patterns.headD "" else "out")
              ++ "-" ++ kt.toDisplay ++ "."
              ++ (if cfg.armor then "asc" else "pgp"))), w) := by
    intro kt patterns hof hex
    refine h1 kt patterns _ ?_ hex
    rw [hof]
    exact render_tqe kt.toDisplay
      (if patterns.length = 1 then patterns.headD "" else "out")
      (if cfg.armor then "asc" else "pgp")
  refine ⟨h1, ⟨rfl, rfl⟩, h3, ?_⟩
  intro hof ha hex
  have := h3 .Secret ["0x0"] hof
  rw [ha] at this
  simpa using this (by simpa using hex)

/-- A filesystem in which every path exists and every operation
succeeds without changing the (unit) state. -/
def fsAll : FsModel Unit :=
  ⟨fun _ _ => true, fun _ _ => (.ok (), ()), fun _ _ _ => (.ok (), ())⟩

/-- C1 witness: at a concrete configuration with output directory
`/tmp/out`, template `{query}-{type}.{ext}`, armor on, Secret keys and
the single pattern `0x0`, the output path is `/tmp/out/0x0-sec.asc`. -/
theorem get_output_file_template_rendering_witness :
    GpgContext.get_output_file fsAll
      ⟨true, none, "/home/user/.gnupg", "{query}-{type}.{ext}", "/tmp/out"⟩
      .Secret ["0x0"] ()
      = (.ok "/tmp/out/0x0-sec.asc", ()) := by
  have h := (get_output_file_template_rendering fsAll
      ⟨true, none, "/home/user/.gnupg", "{query}-{type}.{ext}", "/tmp/out"⟩
      ()).2.2.2 rfl rfl rfl
  exact h.trans (by decide)

/-- A signature on a user id, as surfaced by the engine
(`gpgme::UserIdSignature`); only the accessors the renderer reads are
carried. -/
structure UserIdSignature where
  /-- `sig.cert_class()`, printed in lowercase hex. -/
  cert_class : Nat
  /-- `sig.signer_key_id()`. -/
  signer_key_id : Option String
  /-- `sig.signer_user_id()`. -/
  signer_user_id : Option String
deriving DecidableEq

/-- A user id of a key, as surfaced by the engine (`gpgme::UserId`);
`validity` carries the engine's short-form rendering of
`user.validity()`. -/
structure UserId where
  /-- The displayed form of `user.validity()`. -/
  validity : String
  /-- `user.email()`. -/
  email : Option String
  /-- `user.id()`. -/
  uid : Option String
  /-- `user.signatures()`, in engine order. -/
  signatures : List UserIdSignature
deriving DecidableEq

/-- A raw engine key record (`gpgme::Key`); only the accessors the code
reads are carried. -/
structure Key where
  /-- `key.id()`. -/
  id : Option String
  /-- `key.user_ids()`, in engine order. -/
  user_ids : List UserId
deriving DecidableEq

/-- Representation of a key (`src/gpg/key.rs`, `struct GpgKey`): a raw
engine key paired with a level of detail. -/
structure GpgKey where
  /-- GPGME Key type. -/
  inner : Key
  /-- Level of detail to show about key information. -/
  detail : KeyDetailLevel
deriving DecidableEq

/-- Modelled from the spec: `GpgKey::new`, the constructor `get_keys`
uses to wrap an engine record at a chosen detail level (the copy of
`key.rs` under `src/` carries only the `From<Key>` impl).  Spec §3:
"GpgKey. Pairs a raw engine key with a `detail: KeyDetail`." -/
def GpgKey.new (key : Key) (detail : KeyDetailLevel) : GpgKey :=
  ⟨key, detail⟩

/-- The export mode flags the code passes to the engine
(`gpgme::ExportMode`): no flags, or SECRET for secret-key export. -/
inductive ExportMode where
  /-- `ExportMode::empty()`. -/
  | empty
  /-- `ExportMode::SECRET`. -/
  | secret
deriving DecidableEq

/-- The OpenPGP engine behind the context (the gpgme library), modelled
by the operations the listing/export code calls.  Key enumeration
returns, after a fallible open, a list of per-record results — the
engine surfaces unreadable records as item-level errors.  Engine errors
are numeric gpgme codes. -/
structure Engine where
  /-- `Context::find_keys(patterns)`: open a public-key listing. -/
  find_keys : List String → Except Nat (List (Except Nat Key))
  /-- `Context::find_secret_keys(patterns)`: open a secret-key listing. -/
  find_secret_keys : List String → Except Nat (List (Except Nat Key))
  /-- `Context::export_keys(keys, mode, &mut output)`: export the given
  keys, yielding the bytes written into the output buffer. -/
  export_keys : List Key → ExportMode → Except Nat (List Nat)

/-- `Result::ok()` as used in `filter_map(|key| key.ok())`. -/
def resultOk {ε α : Type} : Except ε α → Option α
  | .ok a => some a
  | .error _ => none

/-- `GpgContext::get_keys_iter` (`src/gpg/context.rs` lines 102-115):
dispatch on the key type and open the matching listing with
`patterns.unwrap_or_default()`. -/
def GpgContext.get_keys_iter (e : Engine) (key_type : KeyType)
    (patterns : Option (List String)) :
    Except GpgError (List (Except Nat Key)) :=
  match key_type with
  | .Public =>
    match e.find_keys (patterns.getD []) with
    | .error n => .error (.engineErr n)
    | .ok ks => .ok ks
  | .Secret =>
    match e.find_secret_keys (patterns.getD []) with
    | .error n => .error (.engineErr n)
    | .ok ks => .ok ks

/-- `GpgContext::get_keys` (`src/gpg/context.rs` lines 119-130): open
the listing, keep the records that materialized (`filter_map(ok)`), and
wrap each at the requested detail level. -/
def GpgContext.get_keys (e : Engine) (key_type : KeyType)
    (patterns : Option (List String)) (detail_level : KeyDetailLevel) :
    Except GpgError (List GpgKey) :=
  match GpgContext.get_keys_iter e key_type patterns with
  | .error err => .error err
  | .ok ks =>
    .ok ((ks.filterMap resultOk).map (fun v => GpgKey.new v detail_level))

/-- `GpgContext::get_exported_keys` (`src/gpg/context.rs` lines
178-202): collect the matching keys (skipping enumeration errors), ask
the engine to export them (SECRET mode for secret keys), and fail with
`anyhow!("nothing exported")` when the output buffer is empty. -/
def GpgContext.get_exported_keys (e : Engine) (key_type : KeyType)
    (patterns : Option (List String)) : Except GpgError (List Nat) :=
  match GpgContext.get_keys_iter e key_type patterns with
  | .error err => .error err
  | .ok iterKeys =>
    let keys := iterKeys.filterMap resultOk
    match e.export_keys keys
        (if key_type = .Secret then .secret else .empty) with
    | .error n => .error (.engineErr n)
    | .ok output =>
      if output.isEmpty then .error (.anyhowMsg "nothing exported")
      else .ok output

/-- `GpgContext::export_keys` (`src/gpg/context.rs` lines 205-215):
export the keys, resolve the destination path, write the buffer
(creating or truncating the file), and return the path. -/
def GpgContext.export_keys {ω : Type} (e : Engine) (fs : FsModel ω)
    (cfg : GpgConfig) (key_type : KeyType)
    (patterns : Option (List String)) (w : ω) :
    (Except GpgError String) × ω :=
  match GpgContext.get_exported_keys e key_type patterns with
  | .error err => (.error err, w)
  | .ok output =>
    match GpgContext.get_output_file fs cfg key_type (patterns.getD []) w with
    | (.error err, w') => (.error err, w')
    | (.ok path, w') =>
      match fs.file_write w' path output with
      | (.error n, w'') => (.error (.ioErr n), w'')
      | (.ok _, w'') => (.ok path, w'')

/-- Opening a listing only fails with an engine error code. -/
theorem get_keys_iter_error_shape (e : Engine) (key_type : KeyType)
    (patterns : Option (List String)) (err : GpgError)
    (h : GpgContext.get_keys_iter e key_type patterns = .error err) :
    ∃ n, err = .engineErr n := by
  unfold GpgContext.get_keys_iter at h
  cases key_type <;> dsimp only at h
  · cases hf : e.find_keys (patterns.getD []) <;> rw [hf] at h <;>
      cases h
    exact ⟨_, rfl⟩
  · cases hf : e.find_secret_keys (patterns.getD []) <;> rw [hf] at h <;>
      cases h
    exact ⟨_, rfl⟩

/-- The records that materialize are exactly counted by `isOk`. -/
theorem length_filterMap_resultOk {ε α : Type}
    (ks : List (Except ε α)) :
    (ks.filterMap resultOk).length = ks.countP Except.isOk := by
  induction ks with
  | nil => rfl
  | cons hd tl ih =>
    cases hd <;>
      simp [resultOk, Except.isOk, Except.toBool, List.countP_cons, ih]

/-- C4: whenever the listing iterator opens, `get_keys` succeeds,
returning exactly the records the engine materialized, in engine order,
each wrapped at the given detail level; records surfaced as enumeration
errors are silently dropped, so the result has one entry per `Ok`
record. -/
theorem get_keys_lenient_listing (e : Engine) (key_type : KeyType)
    (patterns : Option (List String)) (detail_level : KeyDetailLevel)
    (ks : List (Except Nat Key))
    (h : GpgContext.get_keys_iter e key_type patterns = .ok ks) :
    GpgContext.get_keys e key_type patterns detail_level
      = .ok ((ks.filterMap resultOk).map
          (fun v => GpgKey.new v detail_level)) ∧
    ((ks.filterMap resultOk).map
        (fun v => GpgKey.new v detail_level)).length
      = ks.countP Except.isOk ∧
    ∀ gk ∈ (ks.filterMap resultOk).map
        (fun v => GpgKey.new v detail_level),
      gk.detail = detail_level := by
  refine ⟨?_, ?_, ?_⟩
  · unfold GpgContext.get_keys
    rw [h]
  · rw [List.length_map]
    exact length_filterMap_resultOk ks
  · intro gk hgk
    rcases List.mem_map.mp hgk with ⟨v, _, hv⟩
    rw [← hv]
    rfl

/-- A concrete key record named A with no user ids. -/
def keyA : Key := ⟨some "A", []⟩

/-- A concrete key record named B with no user ids. -/
def keyB : Key := ⟨some "B", []⟩

/-- An engine whose public listing holds one broken record and two good
records. -/
def engBroken : Engine :=
  ⟨fun _ => .ok [.error 7, .ok keyA, .ok keyB],
   fun _ => .ok [],
   fun _ _ => .ok []⟩

/-- C4 witness: on a keyring with one broken record and two good
records, the listing returns exactly the two good records and does not
fail. -/
theorem get_keys_lenient_listing_witness :
    GpgContext.get_keys engBroken .Public none .Minimum
      = .ok [GpgKey.new keyA .Minimum, GpgKey.new keyB .Minimum] :=
  ((get_keys_lenient_listing engBroken .Public none .Minimum
      [.error 7, .ok keyA, .ok keyB] rfl).1).trans (by decide)

/-- C3: `get_exported_keys` fails with `"nothing exported"` exactly when
the engine's export produced an empty byte buffer (over a successfully
opened listing); a non-empty buffer is returned as is; and on an engine
where the pattern `no-such-key` selects nothing, the call fails with
that kind. -/
theorem get_exported_keys_nothing_exported (e : Engine)
    (key_type : KeyType) (patterns : Option (List String)) :
    (GpgContext.get_exported_keys e key_type patterns
        = .error (.anyhowMsg "nothing exported") ↔
      ∃ ks, GpgContext.get_keys_iter e key_type patterns = .ok ks ∧
        e.export_keys (ks.filterMap resultOk)
          (if key_type = .Secret then .secret else .empty) = .ok []) ∧
    (∀ ks out, GpgContext.get_keys_iter e key_type patterns = .ok ks →
      e.export_keys (ks.filterMap resultOk)
        (if key_type = .Secret then .secret else .empty) = .ok out →
      out ≠ [] →
      GpgContext.get_exported_keys e key_type patterns = .ok out) ∧
    (e.find_keys ["no-such-key"] = .ok [] →
      e.export_keys [] .empty = .ok [] →
      GpgContext.get_exported_keys e .Public (some ["no-such-key"])
        = .error (.anyhowMsg "nothing exported")) := by
  refine ⟨?_, ?_, ?_⟩
  · unfold GpgContext.get_exported_keys
    cases hi : GpgContext.get_keys_iter e key_type patterns with
    | error err =>
      rcases get_keys_iter_error_shape e key_type patterns err hi with ⟨n, hn⟩
      subst hn
      simp
    | ok ks =>
      dsimp only
      cases he : e.export_keys (ks.filterMap resultOk)
          (if key_type = .Secret then .secret else .empty) with
      | error n =>
        refine iff_of_false (by simp) ?_
        rintro ⟨ks', hks', he'⟩
        cases hks'
        rw [he] at he'
        exact Except.noConfusion he'
      | ok out =>
        cases out with
        | nil =>
          refine iff_of_true (by simp) ⟨ks, rfl, he⟩
        | cons b bs =>
          refine iff_of_false (by simp) ?_
          rintro ⟨ks', hks', he'⟩
          cases hks'
          rw [he] at he'
          simp at he'
  · intro ks out hi he hne
    unfold GpgContext.get_exported_keys
    rw [hi]
    dsimp only
    rw [he]
    cases out with
    | nil => exact absurd rfl hne
    | cons b bs => simp
  · intro hf he
    unfold GpgContext.get_exported_keys GpgContext.get_keys_iter
    dsimp only [Option.getD]
    rw [hf]
    dsimp only [List.filterMap]
    have hmode : (if KeyType.Public = KeyType.Secret
        then ExportMode.secret else ExportMode.empty) = ExportMode.empty := rfl
    rw [hmode, he]
    rfl

/-- An engine holding no keys at all: every listing is empty and every
export produces no bytes. -/
def engEmpty : Engine :=
  ⟨fun _ => .ok [], fun _ => .ok [], fun _ _ => .ok []⟩

/-- C3 witness: on the empty engine,
`get_exported_keys(Public, Some(["no-such-key"]))` fails with the kind
`"nothing exported"`. -/
theorem get_exported_keys_nothing_exported_witness :
    GpgContext.get_exported_keys engEmpty .Public (some ["no-such-key"])
      = .error (.anyhowMsg "nothing exported") :=
  (get_exported_keys_nothing_exported engEmpty .Public
      (some ["no-such-key"])).2.2 rfl rfl

/-- C10: when the export step of `export_keys` fails, the error
propagates before any path resolution: no template is rendered, no
directory is created, no file is created or truncated — the filesystem
state is returned unchanged alongside the same error. -/
theorem export_keys_error_leaves_fs_unchanged {ω : Type} (e : Engine)
    (fs : FsModel ω) (cfg : GpgConfig) (key_type : KeyType)
    (patterns : Option (List String)) (w : ω) (err : GpgError)
    (h : GpgContext.get_exported_keys e key_type patterns = .error err) :
    GpgContext.export_keys e fs cfg key_type patterns w
      = (.error err, w) := by
  unfold GpgContext.export_keys
  rw [h]

/-- C10 witness: on the empty engine the export step fails with
`"nothing exported"`, and `export_keys` returns exactly that error with
the filesystem state untouched. -/
theorem export_keys_error_leaves_fs_unchanged_witness :
    GpgContext.export_keys engEmpty fsAll
      ⟨true, none, "/home/user/.gnupg", "{query}-{type}.{ext}", "/tmp/out"⟩
      .Public none ()
      = (.error (.anyhowMsg "nothing exported"), ()) :=
  export_keys_error_leaves_fs_unchanged engEmpty fsAll
    ⟨true, none, "/home/user/.gnupg", "{query}-{type}.{ext}", "/tmp/out"⟩
    .Public none () (.anyhowMsg "nothing exported") rfl

/-- The engine's import surface together with the file operations
`import_keys` uses, over an abstract keyring state `σ`, file handles `φ`
and engine data objects `δ`.  The import calls mutate the keyring (the
state is threaded and kept even when the call reports an error — the
engine does not roll back). -/
structure ImportModel (σ φ δ : Type) where
  /-- `File::open(key)`: I/O error code or a handle. -/
  open_file : String → Except Nat φ
  /-- `Data::from_seekable_stream(input)`: engine error code or a data
  object. -/
  from_seekable_stream : φ → Except Nat δ
  /-- `Context::import(&mut data)` on a data object: the reported
  `imported()` count, plus the keyring state after the call. -/
  import_data : σ → δ → (Except Nat Nat) × σ
  /-- `Context::import(key)` on raw string key material. -/
  import_str : σ → String → (Except Nat Nat) × σ

/-- The loop body of `GpgContext::import_keys` (`src/gpg/context.rs`
lines 158-174): fold over the inputs accumulating
`imported_keys`, propagating the first failure via `?`. -/
def importKeysLoop {σ φ δ : Type} (m : ImportModel σ φ δ)
    (read_from_file : Bool) :
    σ → Nat → List String → (Except GpgError Nat) × σ
  | s, acc, [] => (.ok acc, s)
  | s, acc, key :: rest =>
    if read_from_file then
      match m.open_file key with
      | .error n => (.error (.ioErr n), s)
      | .ok f =>
        match m.from_seekable_stream f with
        | .error n => (.error (.engineErr n), s)
        | .ok d =>
          match m.import_data s d with
          | (.error n, s') => (.error (.engineErr n), s')
          | (.ok cnt, s') => importKeysLoop m read_from_file s' (acc + cnt) rest
    else
      match m.import_str s key with
      | (.error n, s') => (.error (.engineErr n), s')
      | (.ok cnt, s') => importKeysLoop m read_from_file s' (acc + cnt) rest

/-- `GpgContext::import_keys`: run the loop from a zero count. -/
def GpgContext.import_keys {σ φ δ : Type} (m : ImportModel σ φ δ)
    (s : σ) (keys : List String) (read_from_file : Bool) :
    (Except GpgError Nat) × σ :=
  importKeysLoop m read_from_file s 0 keys

/-- The accumulator only shifts the returned count. -/
theorem importKeysLoop_acc {σ φ δ : Type} (m : ImportModel σ φ δ)
    (rff : Bool) (l : List String) :
    ∀ (s : σ) (acc : Nat),
      importKeysLoop m rff s acc l
        = (match importKeysLoop m rff s 0 l with
           | (.ok n, s') => (.ok (acc + n), s')
           | (.error e, s') => (.error e, s')) := by
  induction l with
  | nil => intro s acc; simp [importKeysLoop]
  | cons key tl ih =>
    intro s acc
    cases rff with
    | true =>
      simp only [importKeysLoop, if_true]
      cases hof : m.open_file key with
      | error n => rfl
      | ok f =>
        dsimp only
        cases hst : m.from_seekable_stream f with
        | error n => rfl
        | ok d =>
          dsimp only
          cases hid : m.import_data s d with
          | mk r s' =>
            cases r with
            | error n => rfl
            | ok cnt =>
              dsimp only
              rw [ih s' (acc + cnt), ih s' (0 + cnt)]
              cases hl : importKeysLoop m true s' 0 tl with
              | mk r2 s'' =>
                cases r2 with
                | error e => rfl
                | ok n2 => simp [Nat.add_assoc]
    | false =>
      simp only [importKeysLoop, Bool.false_eq_true, if_false]
      cases his : m.import_str s key with
      | mk r s' =>
        cases r with
        | error n => rfl
        | ok cnt =>
          dsimp only
          rw [ih s' (acc + cnt), ih s' (0 + cnt)]
          cases hl : importKeysLoop m false s' 0 tl with
          | mk r2 s'' =>
            cases r2 with
            | error e => rfl
            | ok n2 => simp [Nat.add_assoc]

/-- Splitting the input list at any point splits the run. -/
theorem importKeysLoop_append {σ φ δ : Type} (m : ImportModel σ φ δ)
    (rff : Bool) (l1 l2 : List String) :
    ∀ (s : σ) (acc : Nat),
      importKeysLoop m rff s acc (l1 ++ l2)
        = (match importKeysLoop m rff s acc l1 with
           | (.ok n, s') => importKeysLoop m rff s' n l2
           | (.error e, s') => (.error e, s')) := by
  induction l1 with
  | nil => intro s acc; rfl
  | cons key tl ih =>
    intro s acc
    rw [List.cons_append]
    cases rff with
    | true =>
      simp only [importKeysLoop, if_true]
      cases hof : m.open_file key with
      | error n => rfl
      | ok f =>
        dsimp only
        cases hst : m.from_seekable_stream f with
        | error n => rfl
        | ok d =>
          dsimp only
          cases hid : m.import_data s d with
          | mk r s' =>
            cases r with
            | error n => rfl
            | ok cnt => exact ih s' (acc + cnt)
    | false =>
      simp only [importKeysLoop, Bool.false_eq_true, if_false]
      cases his : m.import_str s key with
      | mk r s' =>
        cases r with
        | error n => rfl
        | ok cnt => exact ih s' (acc + cnt)

/-- C5: `import_keys` returns the sum of the engine-reported imported
counts over the elements processed; the first failing element aborts
the batch and propagates its error, the keyring state reached through
the prior successful imports (and the failing call itself) is kept — no
rollback — and later elements are never processed.  Stated as: the empty
batch imports zero; a singleton batch performs exactly the per-element
steps; and a split batch runs the first part, then — only if it fully
succeeded — the second part from the reached state, adding the counts,
while a failure in the first part yields its error and state
untouched by the second part. -/
theorem import_keys_batch_semantics {σ φ δ : Type}
    (m : ImportModel σ φ δ) (s : σ) (rff : Bool) :
    (GpgContext.import_keys m s [] rff = (.ok 0, s)) ∧
    (∀ key, GpgContext.import_keys m s [key] rff
      = (if rff then
          match m.open_file key with
          | .error n => (.error (.ioErr n), s)
          | .ok f =>
            match m.from_seekable_stream f with
            | .error n => (.error (.engineErr n), s)
            | .ok d =>
              match m.import_data s d with
              | (.error n, s') => (.error (.engineErr n), s')
              | (.ok cnt, s') => (.ok cnt, s')
        else
          match m.import_str s key with
          | (.error n, s') => (.error (.engineErr n), s')
          | (.ok cnt, s') => (.ok cnt, s'))) ∧
    (∀ l1 l2, GpgContext.import_keys m s (l1 ++ l2) rff
      = (match GpgContext.import_keys m s l1 rff with
         | (.ok n, s') =>
           (match GpgContext.import_keys m s' l2 rff with
            | (.ok n2, s'') => (.ok (n + n2), s'')
            | (.error e, s'') => (.error e, s''))
         | (.error e, s') => (.error e, s'))) := by
  refine ⟨rfl, ?_, ?_⟩
  · intro key
    unfold GpgContext.import_keys
    cases rff with
    | true =>
      simp only [importKeysLoop, if_true]
      cases hof : m.open_file key with
      | error n => rfl
      | ok f =>
        dsimp only
        cases hst : m.from_seekable_stream f with
        | error n => rfl
        | ok d =>
          dsimp only
          cases hid : m.import_data s d with
          | mk r s' =>
            cases r with
            | error n => rfl
            | ok cnt => simp [importKeysLoop]
    | false =>
      simp only [importKeysLoop, Bool.false_eq_true, if_false]
      cases his : m.import_str s key with
      | mk r s' =>
        cases r with
        | error n => rfl
        | ok cnt => simp [importKeysLoop]
  · intro l1 l2
    unfold GpgContext.import_keys
    rw [importKeysLoop_append m rff l1 l2 s 0]
    cases hl : importKeysLoop m rff s 0 l1 with
    | mk r s' =>
      cases r with
      | error e => rfl
      | ok n =>
        dsimp only
        rw [importKeysLoop_acc m rff l2 s' n]

/-- A concrete import model over a unit-keyring counter: every file
opens, every stream wraps, and every import call reports one imported
key while bumping the counter. -/
def importAlwaysOne : ImportModel Nat Unit Unit :=
  ⟨fun _ => .ok (), fun _ => .ok (),
   fun s _ => (.ok 1, s + 1), fun s _ => (.ok 1, s + 1)⟩

/-- C5 witness: the empty batch imports zero keys and leaves the
keyring untouched. -/
theorem import_keys_batch_semantics_witness :
    GpgContext.import_keys importAlwaysOne 0 [] true = (.ok 0, 0) :=
  (import_keys_batch_semantics importAlwaysOne 0 true).1

/-- The fields of the argument collaborator (`crate::args::Args`) that
`GpgConfig::new` reads. -/
structure Args where
  /-- `--homedir` override, when supplied. -/
  homedir : Option String
  /-- `--outdir` override, when supplied. -/
  outdir : Option String
  /-- The output file template. -/
  outfile : String
  /-- The armor flag. -/
  armor : Bool
  /-- The default signing key, when supplied. -/
  default_key : Option String

/-- The engine protocol selector; only OpenPGP is used. -/
inductive Protocol where
  /-- `Protocol::OpenPgp`. -/
  | OpenPgp

/-- The gpgme library handle (`gpgme::Gpgme`) as `GpgConfig::new` uses
it: pushing a home-directory override and querying a directory (the
constant `Gpgme::HOME_DIR` is the string `"homedir"`). -/
structure Gpgme where
  /-- `Gpgme::set_engine_home_dir`. -/
  set_engine_home_dir : Protocol → String → Except Nat Unit
  /-- `Gpgme::get_dir_info`. -/
  get_dir_info : String → Except Nat String

/-- How a constructor run ends: a value, an error returned to the
caller, or a process abort (`expect` panic). -/
inductive NewOutcome where
  /-- Normal return. -/
  | ok (config : GpgConfig)
  /-- An error returned to the caller (`Err`). -/
  | err (e : GpgError)
  /-- A panic, aborting the process with the given message. -/
  | panicked (msg : String)
deriving DecidableEq

/-- `true` exactly when the outcome is an error returned to the
caller. -/
def NewOutcome.returnsError : NewOutcome → Bool
  | .err _ => true
  | _ => false

/-- `GpgConfig::new` (`src/gpg/config.rs` lines 25-47): with a home-dir
override, push it to the engine (`?` propagates rejection); without
one, query the engine's default home directory and `expect` it — a
panic, not a returned error, when unavailable.  `output_dir` is the
supplied outdir, else `home_dir/out`; the outfile template is stored
verbatim. -/
def GpgConfig.new (gpgme : Gpgme) (args : Args) : NewOutcome :=
  match args.homedir with
  | some home_dir =>
    match gpgme.set_engine_home_dir .OpenPgp home_dir with
    | .error n => .err (.engineErr n)
    | .ok _ =>
      .ok { armor := args.armor, default_key := args.default_key,
            home_dir := home_dir, output_file := args.outfile,
            output_dir :=
              match args.outdir with
              | some od => od
              | none => pathJoin home_dir "out" }
  | none =>
    match gpgme.get_dir_info "homedir" with
    | .error _ => .panicked "failed to get homedir"
    | .ok home_dir =>
      .ok { armor := args.armor, default_key := args.default_key,
            home_dir := home_dir, output_file := args.outfile,
            output_dir :=
              match args.outdir with
              | some od => od
              | none => pathJoin home_dir "out" }

/-- A gpgme handle that accepts any home-dir override but cannot report
its default home directory. -/
def gpgmeNoHome : Gpgme :=
  ⟨fun _ _ => .ok (), fun _ => .error 1⟩

/-- Arguments with no overrides. -/
def argsPlain : Args :=
  ⟨none, none, "{query}-{type}.{ext}", false, none⟩

/-- C6 counterexample: when no home-dir override is supplied and the
engine cannot report its default home directory, the constructor does
not return an error to the caller — it panics (aborts) with
`"failed to get homedir"`. -/
theorem gpgConfig_new_panics_on_missing_homedir :
    GpgConfig.new gpgmeNoHome argsPlain
      = .panicked "failed to get homedir" ∧
    (GpgConfig.new gpgmeNoHome argsPlain).returnsError = false := by
  exact ⟨rfl, rfl⟩

/-- C6 (amended): the constructor returns an error in exactly one
engine-related case (a home-dir override is supplied and the engine
rejects it); when no override is supplied and the engine cannot report
its default home directory it aborts via panic instead of returning;
in all other cases it succeeds and stores home_dir, output_dir (the
supplied outdir, else home_dir/out), the verbatim outfile template,
armor, and default_key. -/
theorem gpgConfig_new_characterization (g : Gpgme) (args : Args) :
    (∀ hd n, args.homedir = some hd →
      g.set_engine_home_dir .OpenPgp hd = .error n →
      GpgConfig.new g args = .err (.engineErr n)) ∧
    (∀ hd, args.homedir = some hd →
      g.set_engine_home_dir .OpenPgp hd = .ok () →
      GpgConfig.new g args
        = .ok { armor := args.armor, default_key := args.default_key,
                home_dir := hd, output_file := args.outfile,
                output_dir := args.outdir.getD (pathJoin hd "out") }) ∧
    (∀ n, args.homedir = none →
      g.get_dir_info "homedir" = .error n →
      GpgConfig.new g args = .panicked "failed to get homedir") ∧
    (∀ hd, args.homedir = none →
      g.get_dir_info "homedir" = .ok hd →
      GpgConfig.new g args
        = .ok { armor := args.armor, default_key := args.default_key,
                home_dir := hd, output_file := args.outfile,
                output_dir := args.outdir.getD (pathJoin hd "out") }) := by
  refine ⟨?_, ?_, ?_, ?_⟩
  · intro hd n hh hs
    unfold GpgConfig.new
    rw [hh]
    dsimp only
    rw [hs]
  · intro hd hh hs
    unfold GpgConfig.new
    rw [hh]
    dsimp only
    rw [hs]
    cases args.outdir <;> rfl
  · intro n hh hg
    unfold GpgConfig.new
    rw [hh]
    dsimp only
    rw [hg]
  · intro hd hh hg
    unfold GpgConfig.new
    rw [hh]
    dsimp only
    rw [hg]
    cases args.outdir <;> rfl

/-- A gpgme handle that accepts overrides and reports a default home
directory. -/
def gpgmeGood : Gpgme :=
  ⟨fun _ _ => .ok (), fun _ => .ok "/home/user/.gnupg"⟩

/-- C6 witness: with a home-dir override the engine accepts and no
outdir, construction succeeds and stores the override with
`output_dir = home_dir/out`. -/
theorem gpgConfig_new_characterization_witness :
    GpgConfig.new gpgmeGood
      ⟨some "/custom/gnupg", none, "{query}-{type}.{ext}", true, none⟩
      = .ok { armor := true, default_key := none,
              home_dir := "/custom/gnupg",
              output_file := "{query}-{type}.{ext}",
              output_dir := "/custom/gnupg/out" } := by
  have h := (gpgConfig_new_characterization gpgmeGood
      ⟨some "/custom/gnupg", none, "{query}-{type}.{ext}", true, none⟩).2.1
      "/custom/gnupg" rfl rfl
  exact h.trans (by decide)

/-- Lowercase hexadecimal rendering of a number (`{:x}`). -/
def hexStr (n : Nat) : String :=
  String.mk (Nat.toDigits 16 n)

/-- The signer body of a signature line (`src/gpg/key.rs` lines
171-181, inline in `get_user_signatures`): the literal `selfsig` when
the signature's signer key id equals the enclosing key's id; otherwise
the signer key id alone when truncated, or key id and signer user id
when not; missing components render as `[?]`. -/
def GpgKey.signerOf (k : GpgKey) (sig : UserIdSignature)
    (truncate : Bool) : String :=
  if sig.signer_key_id = k.inner.id then "selfsig"
  else if truncate then sig.signer_key_id.getD "[?]"
  else (sig.signer_key_id.getD "[?]") ++ " "
    ++ (sig.signer_user_id.getD "[?]")

/-- `GpgKey::get_user_signatures` (`src/gpg/key.rs` lines 142-189):
render the signature lines of one user id.  Each line follows the
format `" {}  {}[{:x}] {} {}"`: a space, the column stem (chosen from
the user's position among `user_count` ids), two spaces, the branch
glyph (`└─` for the last signature, else `├─`), the cert class in hex,
the signer body, and the time.  The time renderer
(`handler::get_signature_time`, from the handler module that is not
under `src/`) is passed in as `sigTime`, applied to the signature and
the format `%Y`/`%F` chosen by `truncate`. -/
def GpgKey.get_user_signatures (k : GpgKey) (user : UserId)
    (user_count user_index : Nat) (truncate : Bool)
    (sigTime : UserIdSignature → String → String) : List String :=
  let signatures := user.signatures
  (List.enum signatures).map (fun p =>
    " "
    ++ (if user_count = 1 then " "
        else if user_index = user_count - 1 then "    "
        else if user_index = 0 then "│"
        else "│   ")
    ++ "  "
    ++ (if p.1 = signatures.length - 1 then "└─" else "├─")
    ++ "[" ++ hexStr p.2.cert_class ++ "] "
    ++ k.signerOf p.2 truncate
    ++ " " ++ sigTime p.2 (if truncate then "%Y" else "%F"))

/-- The loop of `GpgKey::get_user_info` (`src/gpg/key.rs` lines
109-139) over the enumerated user ids (`n` is the total count): each
user line is `"{}[{}] {}"` with prefix `""` for the first id, `" └─"`
for the last, else `" ├─"`, the validity, and the email (truncated) or
full user id; at Minimum detail only the first line is emitted (the
loop breaks); at Full detail each user's signature subtree follows its
line. -/
def userInfoAux (k : GpgKey) (truncate : Bool)
    (sigTime : UserIdSignature → String → String) (n : Nat) :
    List (Nat × UserId) → List String
  | [] => []
  | p :: rest =>
    let line :=
      (if p.1 = 0 then ""
        else if p.1 = n - 1 then " └─"
        else " ├─")
      ++ "[" ++ p.2.validity ++ "] "
      ++ ((if truncate then p.2.email else p.2.uid).getD "[?]")
    if k.detail = .Minimum then [line]
    else
      line :: ((if k.detail = .Full
          then k.get_user_signatures p.2 n p.1 truncate sigTime
          else []) ++ userInfoAux k truncate sigTime n rest)

/-- `GpgKey::get_user_info`: run the loop over the enumerated user
ids. -/
def GpgKey.get_user_info (k : GpgKey) (truncate : Bool)
    (sigTime : UserIdSignature → String → String) : List String :=
  userInfoAux k truncate sigTime k.inner.user_ids.length
    (List.enum k.inner.user_ids)

/-- A self-signature with cert class 0x12 signed by key ABC. -/
def sigSelf : UserIdSignature := ⟨18, some "ABC", some "Carol"⟩

/-- A first user id with no signatures. -/
def userFirst : UserId := ⟨"u", some "a@b", some "Alice", []⟩

/-- A second user id bearing three self-signatures. -/
def userSecond : UserId :=
  ⟨"u", some "c@d", some "Carl", [sigSelf, sigSelf, sigSelf]⟩

/-- A key with id ABC bearing the two user ids above, wrapped at Full
detail. -/
def gpgKeyFull : GpgKey := ⟨⟨some "ABC", [userFirst, userSecond]⟩, .Full⟩

/-- A time renderer stub returning a constant year. -/
def constYear : UserIdSignature → String → String := fun _ _ => "2021"

/-- C7 counterexample: on a key with 2 user ids and 3 signatures on the
second, the signature subtree lines of `get_user_info(true)` at Full
detail begin with seven spaces before the branch glyph (one from the
format string, four from the column stem, two separating), so they do
not start with the four-space prefix `"    ├─"` the claim states. -/
theorem get_user_info_glyph_counterexample :
    GpgKey.get_user_info gpgKeyFull true constYear
      = ["[u] a@b", " └─[u] c@d",
         "       ├─[12] selfsig 2021",
         "       ├─[12] selfsig 2021",
         "       └─[12] selfsig 2021"] ∧
    (List.isPrefixOf "    ├─".data
      "       ├─[12] selfsig 2021".data) = false := by
  refine ⟨by decide, by decide⟩

/-- C7 (amended): with a key bearing 2 user ids and 3 signatures on the
second, `get_user_info(true)` at Full detail emits the first user line,
that user's signature subtree, the second user line, and then the three
signature lines of the second user, which start with
`"       ├─"`, `"       ├─"`, `"       └─"` respectively (a space, the
four-space column stem and two separating spaces precede the glyph);
and every signature whose signer key id equals the enclosing key's id
renders its signer body as the literal `"selfsig"`. -/
theorem get_user_info_glyphs (kid : Option String) (u0 : UserId)
    (u1v : String) (u1e u1i : Option String)
    (s1 s2 s3 : UserIdSignature)
    (sigTime : UserIdSignature → String → String) :
    (GpgKey.get_user_info
        ⟨⟨kid, [u0, ⟨u1v, u1e, u1i, [s1, s2, s3]⟩]⟩, .Full⟩ true sigTime
      = ("[" ++ u0.validity ++ "] " ++ (u0.email.getD "[?]"))
        :: ((GpgKey.get_user_signatures
              ⟨⟨kid, [u0, ⟨u1v, u1e, u1i, [s1, s2, s3]⟩]⟩, .Full⟩
              u0 2 0 true sigTime)
          ++ (" └─" ++ "[" ++ u1v ++ "] " ++ (u1e.getD "[?]"))
          :: [" " ++ "    " ++ "  " ++ "├─"
                ++ "[" ++ hexStr s1.cert_class ++ "] "
                ++ GpgKey.signerOf
                    ⟨⟨kid, [u0, ⟨u1v, u1e, u1i, [s1, s2, s3]⟩]⟩, .Full⟩
                    s1 true
                ++ " " ++ sigTime s1 "%Y",
              " " ++ "    " ++ "  " ++ "├─"
                ++ "[" ++ hexStr s2.cert_class ++ "] "
                ++ GpgKey.signerOf
                    ⟨⟨kid, [u0, ⟨u1v, u1e, u1i, [s1, s2, s3]⟩]⟩, .Full⟩
                    s2 true
                ++ " " ++ sigTime s2 "%Y",
              " " ++ "    " ++ "  " ++ "└─"
                ++ "[" ++ hexStr s3.cert_class ++ "] "
                ++ GpgKey.signerOf
                    ⟨⟨kid, [u0, ⟨u1v, u1e, u1i, [s1, s2, s3]⟩]⟩, .Full⟩
                    s3 true
                ++ " " ++ sigTime s3 "%Y"])) ∧
    ((" " ++ "    " ++ "  " ++ "├─" : String) = "       ├─" ∧
     (" " ++ "    " ++ "  " ++ "└─" : String) = "       └─") ∧
    (∀ sig : UserIdSignature, sig.signer_key_id = kid →
      GpgKey.signerOf
        ⟨⟨kid, [u0, ⟨u1v, u1e, u1i, [s1, s2, s3]⟩]⟩, .Full⟩ sig true
        = "selfsig") := by
  refine ⟨?_, ⟨by decide, by decide⟩, ?_⟩
  · simp [GpgKey.get_user_info, userInfoAux, GpgKey.get_user_signatures,
      List.enum, List.enumFrom]
  · intro sig h
    unfold GpgKey.signerOf
    rw [if_pos]
    exact h

/-- C7 witness: at the concrete key with id ABC, a signature signed by
ABC renders its signer body as `selfsig`. -/
theorem get_user_info_glyphs_witness :
    GpgKey.signerOf
      ⟨⟨some "ABC", [userFirst, ⟨"u", some "c@d", some "Carl",
          [sigSelf, sigSelf, sigSelf]⟩]⟩, .Full⟩ sigSelf true
      = "selfsig" :=
  (get_user_info_glyphs (some "ABC") userFirst "u" (some "c@d")
      (some "Carl") sigSelf sigSelf sigSelf constYear).2.2 sigSelf rfl

end Gpg
